import Mathlib

/-!
Shallow embedding of the question/response/notification core of the
peer-tutor-connect repository (backend/data/questions.js,
backend/data/responses.js, backend/data/notifications.js and the Express
routes in backend/routes/responses.js, backend/routes/questions.js and the
notifications route file).

Entity ids are modelled as natural numbers: every id handled by the embedded
operations is well-formed by typing, so the `isValidObjectId` guards of the
source (which only check the string shape of a MongoDB ObjectId) are
represented by the type of the id arguments.  Timestamps (`new Date()`) are
modelled by a `now : Nat` clock carried in the database state.  The
`posterName` read-time decoration produced by the aggregation pipelines is
omitted: it joins a display name onto query results and is not consulted by
any operation.

The express-validator `.trim()` sanitizer composed with the trim performed by
`validateString` in the data layer equals a single trim, so the model passes
the raw string through and trims once in the data layer.
-/

namespace PeerTutor

/-- A document of the questions collection. -/
structure Question where
  id : Nat
  courseId : Nat
  posterId : Nat
  title : String
  content : String
  isAnonymous : Bool
  isResolved : Bool
  createdAt : Nat
  updatedAt : Nat
deriving Repr, DecidableEq

/-- A document of the responses collection. -/
structure Response where
  id : Nat
  questionId : Nat
  posterId : Nat
  content : String
  isAnonymous : Bool
  isHelpful : Bool
  createdAt : Nat
  updatedAt : Nat
deriving Repr, DecidableEq

/-- A document of the notifications collection. -/
structure Notification where
  id : Nat
  recipientId : Nat
  questionId : Nat
  senderId : Nat
  type : String
  message : String
  isRead : Bool
  createdAt : Nat
deriving Repr, DecidableEq

/-- The persistent state: the three collections the examined core touches,
an id generator for inserted documents, the current clock value, and a flag
modelling a storage failure of the notifications insert (the one side effect
whose failure the routes catch). -/
structure DB where
  questions : List Question
  responses : List Response
  notifications : List Notification
  nextId : Nat
  now : Nat
  notifInsertFails : Bool
deriving Repr, DecidableEq

/-- Error kinds thrown by the data layer, following the taxonomy of the
spec: validation errors, missing entities, and storage failures. -/
inductive DataErr where
  | invalidInput (msg : String)
  | notFoundKind (msg : String)
  | unavailable (msg : String)
deriving Repr, DecidableEq

/-- Whether an error is of the InvalidInput kind. -/
def DataErr.isInvalidInput : DataErr → Bool
  | .invalidInput _ => true
  | _ => false

/-- A JSON value occurring in an update payload. -/
inductive JsValue where
  | str (s : String)
  | bool (b : Bool)
  | num (n : Int)
deriving Repr, DecidableEq

/-- An update payload: the entries of the request body object. -/
abbrev UpdatePayload := List (String × JsValue)

/-- The trim applied by the source (String.prototype.trim and the
express-validator trim sanitizer): whitespace dropped from both ends.
Modelled on the character list of the string so that it evaluates by
kernel reduction. -/
def jsTrim (s : String) : String :=
  ⟨((s.data.dropWhile Char.isWhitespace).reverse.dropWhile
      Char.isWhitespace).reverse⟩

/-- validation.js validateString: trims, then checks the length bounds.
The undefined/null and non-string branches of the source are unrepresentable
for a String argument; they are handled where a JsValue is inspected. -/
def validateString (value : String) (fieldName : String)
    (minLength : Nat) (maxLength : Nat) : Except DataErr String :=
  if (jsTrim value).length < minLength then
    .error (.invalidInput (fieldName ++ " is too short"))
  else if (jsTrim value).length > maxLength then
    .error (.invalidInput (fieldName ++ " must not exceed the maximum length"))
  else
    .ok (jsTrim value)

/-- Lookup of a document by id (getQuestionById, without the posterName
decoration). -/
def findQuestion (db : DB) (questionId : Nat) : Option Question :=
  db.questions.find? (fun q => q.id == questionId)

/-- Lookup of a document by id (getResponseById). -/
def findResponse (db : DB) (responseId : Nat) : Option Response :=
  db.responses.find? (fun r => r.id == responseId)

/-- Lookup of a document by id (getNotificationById). -/
def findNotification (db : DB) (notificationId : Nat) : Option Notification :=
  db.notifications.find? (fun n => n.id == notificationId)

/-! ### data/questions.js -/

/-- The update allow-list of updateQuestion. -/
def questionAllowedUpdates : List String := ["title", "content", "isResolved"]

/-- The fields accumulated by the update loop of updateQuestion. -/
structure QuestionUpdateFields where
  title : Option String := none
  content : Option String := none
  isResolved : Option Bool := none
deriving Repr, DecidableEq

/-- The per-entry loop of updateQuestion: rejects any key outside the
allow-list, validates title/content as strings with the length caps and
isResolved as a boolean. -/
def processQuestionUpdates :
    UpdatePayload → QuestionUpdateFields → Except DataErr QuestionUpdateFields
  | [], acc => .ok acc
  | (key, value) :: rest, acc =>
    if !(questionAllowedUpdates.contains key) then
      .error (.invalidInput ("Cannot update field: " ++ key))
    else if key == "title" then
      match value with
      | .str s =>
        match validateString s "Title" 1 200 with
        | .error e => .error e
        | .ok t => processQuestionUpdates rest { acc with title := some t }
      | _ => .error (.invalidInput "Title must be a string")
    else if key == "content" then
      match value with
      | .str s =>
        match validateString s "Content" 1 2000 with
        | .error e => .error e
        | .ok c => processQuestionUpdates rest { acc with content := some c }
      | _ => .error (.invalidInput "Content must be a string")
    else
      match value with
      | .bool b => processQuestionUpdates rest { acc with isResolved := some b }
      | _ => .error (.invalidInput "isResolved must be a boolean")

/-- updateQuestion: rejects an empty payload, runs the allow-list loop, then
applies the accepted fields (always refreshing updatedAt) to the matching
document via findOneAndUpdate; NotFound when the id matches nothing. -/
def updateQuestion (db : DB) (questionId : Nat) (updates : UpdatePayload) :
    Except DataErr (DB × Question) :=
  if updates.isEmpty then .error (.invalidInput "No updates provided")
  else
    match processQuestionUpdates updates {} with
    | .error e => .error e
    | .ok fields =>
      match findQuestion db questionId with
      | none => .error (.notFoundKind "Question not found")
      | some q =>
        let q1 : Question :=
          { q with
            title := fields.title.getD q.title
            content := fields.content.getD q.content
            isResolved := fields.isResolved.getD q.isResolved
            updatedAt := db.now }
        .ok ({ db with
                questions := db.questions.map
                  (fun x => if x.id == questionId then q1 else x) }, q1)

/-- deleteQuestion: deleteOne on the id; NotFound when nothing was deleted. -/
def deleteQuestion (db : DB) (questionId : Nat) : Except DataErr (DB × Nat) :=
  if (db.questions.filter (fun q => !(q.id == questionId))).length
      == db.questions.length then
    .error (.notFoundKind "Question not found")
  else
    .ok ({ db with
            questions := db.questions.filter (fun q => !(q.id == questionId)) },
         db.questions.length
           - (db.questions.filter (fun q => !(q.id == questionId))).length)

/-- The comparator of the ascending createdAt sort ({ createdAt: 1 }). -/
def byCreatedAsc (a b : Question) : Bool := a.createdAt ≤ b.createdAt

/-- The comparator of the descending createdAt sort ({ createdAt: -1 }). -/
def byCreatedDesc (a b : Question) : Bool := b.createdAt ≤ a.createdAt

/-- The questions of one course: the courseId part of the $match stage. -/
def courseQuestions (db : DB) (courseId : Nat) : List Question :=
  db.questions.filter (fun q => q.courseId == courseId)

/-- getQuestionsByCourseId: matches on the course, adds the isResolved
filter for answered/unanswered, and sorts by createdAt in the direction of
the switch; the default branch equals the newest branch. -/
def getQuestionsByCourseId (db : DB) (courseId : Nat) (sortOption : String) :
    List Question :=
  let base := courseQuestions db courseId
  if sortOption == "newest" then base.mergeSort byCreatedDesc
  else if sortOption == "oldest" then base.mergeSort byCreatedAsc
  else if sortOption == "answered" then
    (base.filter (fun q => q.isResolved)).mergeSort byCreatedDesc
  else if sortOption == "unanswered" then
    (base.filter (fun q => !q.isResolved)).mergeSort byCreatedDesc
  else base.mergeSort byCreatedDesc

/-! ### data/responses.js -/

/-- createResponse: validates the content, forces isHelpful to false and
inserts the new document with fresh timestamps. -/
def createResponse (db : DB) (questionId : Nat) (posterId : Nat)
    (content : String) (isAnonymous : Bool) : Except DataErr (DB × Response) :=
  match validateString content "Content" 1 1500 with
  | .error e => .error e
  | .ok c =>
    let r : Response :=
      { id := db.nextId
        questionId := questionId
        posterId := posterId
        content := c
        isAnonymous := isAnonymous
        isHelpful := false
        createdAt := db.now
        updatedAt := db.now }
    .ok ({ db with responses := db.responses ++ [r], nextId := db.nextId + 1 }, r)

/-- The update allow-list of updateResponse. -/
def responseAllowedUpdates : List String := ["content", "isHelpful"]

/-- The fields accumulated by the update loop of updateResponse. -/
structure ResponseUpdateFields where
  content : Option String := none
  isHelpful : Option Bool := none
deriving Repr, DecidableEq

/-- The per-entry loop of updateResponse: rejects any key outside the
allow-list, validates content as a string with the length cap and isHelpful
as a boolean. -/
def processResponseUpdates :
    UpdatePayload → ResponseUpdateFields → Except DataErr ResponseUpdateFields
  | [], acc => .ok acc
  | (key, value) :: rest, acc =>
    if !(responseAllowedUpdates.contains key) then
      .error (.invalidInput ("Cannot update field: " ++ key))
    else if key == "content" then
      match value with
      | .str s =>
        match validateString s "Content" 1 1500 with
        | .error e => .error e
        | .ok c => processResponseUpdates rest { acc with content := some c }
      | _ => .error (.invalidInput "Content must be a string")
    else
      match value with
      | .bool b => processResponseUpdates rest { acc with isHelpful := some b }
      | _ => .error (.invalidInput "isHelpful must be a boolean")

/-- updateResponse: rejects an empty payload, runs the allow-list loop, then
applies the accepted fields (always refreshing updatedAt) to the matching
document; NotFound when the id matches nothing. -/
def updateResponse (db : DB) (responseId : Nat) (updates : UpdatePayload) :
    Except DataErr (DB × Response) :=
  if updates.isEmpty then .error (.invalidInput "No updates provided")
  else
    match processResponseUpdates updates {} with
    | .error e => .error e
    | .ok fields =>
      match findResponse db responseId with
      | none => .error (.notFoundKind "Response not found")
      | some r =>
        let r1 : Response :=
          { r with
            content := fields.content.getD r.content
            isHelpful := fields.isHelpful.getD r.isHelpful
            updatedAt := db.now }
        .ok ({ db with
                responses := db.responses.map
                  (fun x => if x.id == responseId then r1 else x) }, r1)

/-- deleteResponse: deleteOne on the id; NotFound when nothing was deleted. -/
def deleteResponse (db : DB) (responseId : Nat) : Except DataErr (DB × Nat) :=
  if (db.responses.filter (fun r => !(r.id == responseId))).length
      == db.responses.length then
    .error (.notFoundKind "Response not found")
  else
    .ok ({ db with
            responses := db.responses.filter (fun r => !(r.id == responseId)) },
         db.responses.length
           - (db.responses.filter (fun r => !(r.id == responseId))).length)

/-- deleteResponsesByQuestionId: deleteMany on the questionId; never fails,
returns the count of removed documents. -/
def deleteResponsesByQuestionId (db : DB) (questionId : Nat) : DB × Nat :=
  ({ db with
      responses := db.responses.filter (fun r => !(r.questionId == questionId)) },
   db.responses.length
     - (db.responses.filter (fun r => !(r.questionId == questionId))).length)

/-! ### data/notifications.js -/

/-- createNotification: validates type and message as non-empty strings,
forces isRead to false and inserts the document.  A storage failure of the
insert (the unacknowledged-insert throw of the source) is modelled by the
notifInsertFails flag of the state. -/
def createNotification (db : DB) (recipientId : Nat) (questionId : Nat)
    (senderId : Nat) (ntype : String) (message : String) :
    Except DataErr (DB × Notification) :=
  match validateString ntype "Type" 1 1000 with
  | .error e => .error e
  | .ok t =>
    match validateString message "Message" 1 1000 with
    | .error e => .error e
    | .ok m =>
      if db.notifInsertFails then
        .error (.unavailable "Failed to create notification")
      else
        let n : Notification :=
          { id := db.nextId
            recipientId := recipientId
            questionId := questionId
            senderId := senderId
            type := t
            message := m
            isRead := false
            createdAt := db.now }
        .ok ({ db with
                notifications := db.notifications ++ [n]
                nextId := db.nextId + 1 }, n)

/-- markNotificationAsRead: findOneAndUpdate setting isRead to true;
NotFound when the id matches nothing. -/
def markNotificationAsRead (db : DB) (notificationId : Nat) :
    Except DataErr (DB × Notification) :=
  match findNotification db notificationId with
  | none => .error (.notFoundKind "Notification not found")
  | some n =>
    let n1 : Notification := { n with isRead := true }
    .ok ({ db with
            notifications := db.notifications.map
              (fun x => if x.id == notificationId then n1 else x) }, n1)

/-- deleteNotificationsByQuestionId: deleteMany on the questionId; never
fails, returns the count of removed documents. -/
def deleteNotificationsByQuestionId (db : DB) (questionId : Nat) : DB × Nat :=
  ({ db with
      notifications :=
        db.notifications.filter (fun n => !(n.questionId == questionId)) },
   db.notifications.length
     - (db.notifications.filter (fun n => !(n.questionId == questionId))).length)

/-! ### Route layer (backend/routes/responses.js, backend/routes/questions.js,
and the notifications route file)

Each route receives the authenticated session identity (requireAuth) as an
explicit argument, runs the express-validator checks first, then the
handler body.  The outcome records the protocol-level decision the handler
makes; the state returned is the database after the handler ran. -/

/-- The outcome of one route invocation. -/
inductive HttpOutcome where
  | success (status : Nat)
  | validationError
  | forbidden (msg : String)
  | notFoundErr (msg : String)
  | serverError (e : DataErr)
deriving Repr, DecidableEq

/-- Lookup of a body key, as express-validator and the handlers read it. -/
def lookupKey (body : UpdatePayload) (key : String) : Option JsValue :=
  (body.find? (fun kv => kv.1 == key)).map (fun kv => kv.2)

/-- The express-validator optional trimmed isLength check on a body value;
a non-string value fails it. -/
def strLenValid (v : JsValue) (minLength maxLength : Nat) : Bool :=
  match v with
  | .str s => minLength ≤ (jsTrim s).length && (jsTrim s).length ≤ maxLength
  | _ => false

/-- Body validation of PATCH /api/responses/:responseId: content is
optional with the 1 to 1500 length bounds; other keys pass through
unvalidated. -/
def respPatchBodyValid (body : UpdatePayload) : Bool :=
  match lookupKey body "content" with
  | none => true
  | some v => strLenValid v 1 1500

/-- Body validation of PATCH /api/questions/:questionId: title, content and
isResolved are optional; other keys pass through unvalidated. -/
def questionPatchBodyValid (body : UpdatePayload) : Bool :=
  (match lookupKey body "title" with
   | none => true
   | some v => strLenValid v 1 200) &&
  (match lookupKey body "content" with
   | none => true
   | some v => strLenValid v 1 2000) &&
  (match lookupKey body "isResolved" with
   | none => true
   | some (.bool _) => true
   | some _ => false)

/-- The message built for a helpful_mark notification. -/
def helpfulMsg (title : String) : String :=
  "Your response to \"" ++ title ++ "\" was marked as helpful!"

/-- The message built for a new_response notification. -/
def newResponseMsg (responderName : String) (title : String) : String :=
  responderName ++ " replied to your question: \"" ++ title ++ "\""

/-- POST /api/responses: validates the content shape, creates the response,
then attempts the new_response notification for the question poster inside
a try/catch whose failure is logged and ignored; no notification when the
question is missing or the responder is the question poster. -/
def postResponseRoute (db : DB) (posterId : Nat) (posterFirstName : String)
    (questionId : Nat) (content : String) (isAnonymous : Bool) :
    HttpOutcome × DB :=
  if (jsTrim content).length < 1 || (jsTrim content).length > 1500 then
    (.validationError, db)
  else
    match createResponse db questionId posterId content isAnonymous with
    | .error e => (.serverError e, db)
    | .ok (db1, _) =>
      let db2 :=
        match findQuestion db1 questionId with
        | none => db1
        | some question =>
          if question.posterId != posterId then
            let responderName :=
              if isAnonymous then "Someone" else posterFirstName
            match createNotification db1 question.posterId questionId posterId
                "new_response" (newResponseMsg responderName question.title) with
            | .ok (db3, _) => db3
            | .error _ => db1
          else db1
      (.success 201, db2)

/-- PATCH /api/responses/:responseId: validation, then existence, then the
ownership check against the response poster, then updateResponse on the
whole request body. -/
def patchResponseRoute (db : DB) (currentUserId : Nat) (responseId : Nat)
    (body : UpdatePayload) : HttpOutcome × DB :=
  if !(respPatchBodyValid body) then (.validationError, db)
  else
    match findResponse db responseId with
    | none => (.notFoundErr "Response not found", db)
    | some response =>
      if response.posterId != currentUserId then
        (.forbidden "You can only edit your own responses", db)
      else
        match updateResponse db responseId body with
        | .ok (db1, _) => (.success 200, db1)
        | .error e => (.serverError e, db)

/-- DELETE /api/responses/:responseId: existence, then the ownership check
against the response poster, then deleteResponse. -/
def deleteResponseRoute (db : DB) (currentUserId : Nat) (responseId : Nat) :
    HttpOutcome × DB :=
  match findResponse db responseId with
  | none => (.notFoundErr "Response not found", db)
  | some response =>
    if response.posterId != currentUserId then
      (.forbidden "You can only delete your own responses", db)
    else
      match deleteResponse db responseId with
      | .ok (db1, _) => (.success 200, db1)
      | .error e => (.serverError e, db)

/-- PATCH /api/responses/:responseId/helpful: existence of the response,
then updateResponse on the isHelpful flag, then — when the requested value
is true and the actor differs from the response poster — the helpful_mark
notification for the response poster inside a try/catch whose failure is
logged and ignored.  The handler performs no comparison of the actor with
the poster of the owning question. -/
def patchHelpfulRoute (db : DB) (currentUserId : Nat) (responseId : Nat)
    (isHelpful : Bool) : HttpOutcome × DB :=
  match findResponse db responseId with
  | none => (.notFoundErr "Response not found", db)
  | some response =>
    match updateResponse db responseId [("isHelpful", JsValue.bool isHelpful)] with
    | .error e => (.serverError e, db)
    | .ok (db1, _) =>
      if isHelpful && response.posterId != currentUserId then
        match findQuestion db1 response.questionId with
        | none => (.success 200, db1)
        | some question =>
          match createNotification db1 response.posterId response.questionId
              currentUserId "helpful_mark" (helpfulMsg question.title) with
          | .ok (db2, _) => (.success 200, db2)
          | .error _ => (.success 200, db1)
      else (.success 200, db1)

/-- PATCH /api/questions/:questionId: validation, then existence, then the
ownership check against the question poster, then updateQuestion on the
whole request body. -/
def patchQuestionRoute (db : DB) (currentUserId : Nat) (questionId : Nat)
    (body : UpdatePayload) : HttpOutcome × DB :=
  if !(questionPatchBodyValid body) then (.validationError, db)
  else
    match findQuestion db questionId with
    | none => (.notFoundErr "Question not found", db)
    | some question =>
      if question.posterId != currentUserId then
        (.forbidden "You can only edit your own questions", db)
      else
        match updateQuestion db questionId body with
        | .ok (db1, _) => (.success 200, db1)
        | .error e => (.serverError e, db)

/-- DELETE /api/questions/:questionId: existence, then the ownership check
against the question poster, then the cascade in the fixed order responses,
notifications, question. -/
def deleteQuestionRoute (db : DB) (currentUserId : Nat) (questionId : Nat) :
    HttpOutcome × DB :=
  match findQuestion db questionId with
  | none => (.notFoundErr "Question not found", db)
  | some question =>
    if question.posterId != currentUserId then
      (.forbidden "You can only delete your own questions", db)
    else
      let p1 := deleteResponsesByQuestionId db questionId
      let p2 := deleteNotificationsByQuestionId p1.1 questionId
      match deleteQuestion p2.1 questionId with
      | .ok (db3, _) => (.success 200, db3)
      | .error e => (.serverError e, p2.1)

/-- PATCH /api/notifications/:notificationId/read: the handler reads only
the notification id from the request; the session identity established by
requireAuth is never consulted. -/
def patchNotificationReadRoute (db : DB) (actingStudentId : Nat)
    (notificationId : Nat) : HttpOutcome × DB :=
  match markNotificationAsRead db notificationId with
  | .ok (db1, _) => (.success 200, db1)
  | .error e => (.serverError e, db)

/-! ### Shared sample data and helper lemmas -/

/-- A sample question, posted by student 1 in course 1. -/
def exQuestion : Question :=
  { id := 10, courseId := 1, posterId := 1, title := "T", content := "c",
    isAnonymous := false, isResolved := false, createdAt := 1, updatedAt := 1 }

/-- A sample response to question 10, posted by student 2. -/
def exResponse : Response :=
  { id := 20, questionId := 10, posterId := 2, content := "r",
    isAnonymous := false, isHelpful := false, createdAt := 2, updatedAt := 2 }

/-- A sample notification about question 10, addressed to student 1. -/
def exNotification : Notification :=
  { id := 40, recipientId := 1, questionId := 10, senderId := 2,
    type := "new_response", message := "m", isRead := false, createdAt := 3 }

/-- A sample database holding the three documents above. -/
def exDB : DB :=
  { questions := [exQuestion], responses := [exResponse],
    notifications := [exNotification], nextId := 50, now := 5,
    notifInsertFails := false }

/-- Filtering with a predicate after keeping only its complement is empty. -/
theorem filter_neg_filter {α : Type} (p : α → Bool) (l : List α) :
    (l.filter (fun x => !(p x))).filter p = [] := by
  rw [List.filter_filter]
  simp

/-- Filtering with a predicate and with its complement partitions a list. -/
theorem length_filter_partition {α : Type} (p : α → Bool) (l : List α) :
    (l.filter p).length + (l.filter (fun x => !(p x))).length = l.length := by
  induction l with
  | nil => rfl
  | cons a t ih => cases h : p a <;> simp [List.filter_cons, h] <;> omega

/-- validateString succeeds on a string whose trimmed length is in bounds,
returning the trimmed string. -/
theorem validateString_ok (s fieldName : String) (mn mx : Nat)
    (h1 : mn ≤ (jsTrim s).length) (h2 : (jsTrim s).length ≤ mx) :
    validateString s fieldName mn mx = .ok (jsTrim s) := by
  unfold validateString
  rw [if_neg (by omega), if_neg (by omega)]

/-- Every error of validateString is of the InvalidInput kind. -/
theorem validateString_error_invalid (s fieldName : String) (mn mx : Nat)
    (e : DataErr) (h : validateString s fieldName mn mx = .error e) :
    e.isInvalidInput = true := by
  unfold validateString at h
  split at h
  · cases h; rfl
  · split at h
    · cases h; rfl
    · cases h

/-- updateResponse on an isHelpful-only payload sets the flag and refreshes
updatedAt on the matching document. -/
theorem updateResponse_isHelpful (db : DB) (r : Response) (b : Bool)
    (hr : findResponse db r.id = some r) :
    updateResponse db r.id [("isHelpful", JsValue.bool b)] =
      .ok ({ db with
              responses := db.responses.map
                (fun x => if x.id == r.id then
                  { r with isHelpful := b, updatedAt := db.now } else x) },
           { r with isHelpful := b, updatedAt := db.now }) := by
  unfold updateResponse
  rw [hr]
  rfl

/-- createResponse succeeds on in-bounds content and appends the new
document with isHelpful forced to false. -/
theorem createResponse_ok (db : DB) (qid pid : Nat) (content : String)
    (anon : Bool) (h1 : 1 ≤ (jsTrim content).length)
    (h2 : (jsTrim content).length ≤ 1500) :
    createResponse db qid pid content anon =
      .ok ({ db with
              responses := db.responses ++
                [{ id := db.nextId, questionId := qid, posterId := pid,
                   content := jsTrim content, isAnonymous := anon,
                   isHelpful := false, createdAt := db.now,
                   updatedAt := db.now }],
              nextId := db.nextId + 1 },
           { id := db.nextId, questionId := qid, posterId := pid,
             content := jsTrim content, isAnonymous := anon, isHelpful := false,
             createdAt := db.now, updatedAt := db.now }) := by
  unfold createResponse
  rw [validateString_ok content "Content" 1 1500 h1 h2]

/-- createNotification succeeds when type and message are in bounds and the
storage layer does not fail, appending the new document with isRead false. -/
theorem createNotification_ok (db : DB) (rid qid sid : Nat) (t m : String)
    (ht1 : 1 ≤ (jsTrim t).length) (ht2 : (jsTrim t).length ≤ 1000)
    (hm1 : 1 ≤ (jsTrim m).length) (hm2 : (jsTrim m).length ≤ 1000)
    (hok : db.notifInsertFails = false) :
    createNotification db rid qid sid t m =
      .ok ({ db with
              notifications := db.notifications ++
                [{ id := db.nextId, recipientId := rid, questionId := qid,
                   senderId := sid, type := jsTrim t, message := jsTrim m,
                   isRead := false, createdAt := db.now }],
              nextId := db.nextId + 1 },
           { id := db.nextId, recipientId := rid, questionId := qid,
             senderId := sid, type := jsTrim t, message := jsTrim m,
             isRead := false, createdAt := db.now }) := by
  unfold createNotification
  rw [validateString_ok t "Type" 1 1000 ht1 ht2,
    validateString_ok m "Message" 1 1000 hm1 hm2]
  simp [hok]

/-- createNotification always fails when the storage layer fails. -/
theorem createNotification_fails (db : DB) (rid qid sid : Nat) (t m : String)
    (hfail : db.notifInsertFails = true) :
    ∃ e, createNotification db rid qid sid t m = .error e := by
  unfold createNotification
  cases h1 : validateString t "Type" 1 1000 with
  | error e => exact ⟨e, rfl⟩
  | ok tt =>
    cases h2 : validateString m "Message" 1 1000 with
    | error e => exact ⟨e, rfl⟩
    | ok mm =>
      rw [hfail]
      exact ⟨.unavailable "Failed to create notification", rfl⟩

/-- Question lookup ignores the responses collection. -/
theorem findQuestion_responses_update (db : DB) (resps : List Response)
    (qid : Nat) : findQuestion { db with responses := resps } qid
      = findQuestion db qid := rfl

/-- Question lookup ignores the responses collection and the id counter. -/
theorem findQuestion_resp_next_update (db : DB) (resps : List Response)
    (k qid : Nat) :
    findQuestion { db with responses := resps, nextId := k } qid
      = findQuestion db qid := rfl

/-- The database state after the full cascade of a question delete: the
three collections filtered of everything referencing the question. -/
def cascadeResult (db : DB) (qid : Nat) : DB :=
  { db with
    questions := db.questions.filter (fun x => !(x.id == qid))
    responses := db.responses.filter (fun r => !(r.questionId == qid))
    notifications := db.notifications.filter (fun n => !(n.questionId == qid)) }

/-! ### C1 -/

/-- C1: refuted by the code. The helpful-mark handler never compares the
acting identity with the poster of the owning question: acting student 3,
who is neither the poster of question 10 (student 1) nor the poster of
response 20 (student 2), successfully sets isHelpful on response 20 and
receives 200, where the claim requires a Forbidden rejection with the
response unchanged. -/
theorem helpful_route_lacks_question_poster_check :
    exQuestion.posterId = 1 ∧ exResponse.posterId = 2 ∧
    (patchHelpfulRoute exDB 3 20 true).1 = HttpOutcome.success 200 ∧
    ((patchHelpfulRoute exDB 3 20 true).2.responses.find?
        (fun r => r.id == 20)).map (fun r => r.isHelpful) = some true := by
  decide

/-! ### C2 -/

/-- C2: deleting a question through its route (invoked by the poster)
executes the cascade in the fixed order responses, notifications, question:
the final state equals the result of that pipeline, and in it no response
and no notification references the question and the question is gone. -/
theorem question_delete_cascade_complete (db : DB) (q : Question)
    (hq : findQuestion db q.id = some q) :
    deleteQuestion (deleteNotificationsByQuestionId
        (deleteResponsesByQuestionId db q.id).1 q.id).1 q.id =
      .ok (cascadeResult db q.id,
           db.questions.length
             - (db.questions.filter (fun x => !(x.id == q.id))).length) ∧
    deleteQuestionRoute db q.posterId q.id =
      (HttpOutcome.success 200, cascadeResult db q.id) ∧
    (cascadeResult db q.id).responses.filter
        (fun r => r.questionId == q.id) = [] ∧
    (cascadeResult db q.id).notifications.filter
        (fun n => n.questionId == q.id) = [] ∧
    (cascadeResult db q.id).questions.filter (fun x => x.id == q.id) = [] := by
  have hmem : q ∈ db.questions := List.mem_of_find?_eq_some hq
  have hlen : (db.questions.filter (fun x => !(x.id == q.id))).length
      ≠ db.questions.length := by
    intro he
    have hall := List.filter_length_eq_length.mp he q hmem
    simp at hall
  have hbeq : ((db.questions.filter (fun x => !(x.id == q.id))).length
      == db.questions.length) = false := beq_eq_false_iff_ne.mpr hlen
  have hpipe : deleteQuestion (deleteNotificationsByQuestionId
      (deleteResponsesByQuestionId db q.id).1 q.id).1 q.id =
      .ok (cascadeResult db q.id,
           db.questions.length
             - (db.questions.filter (fun x => !(x.id == q.id))).length) := by
    unfold deleteQuestion deleteNotificationsByQuestionId
      deleteResponsesByQuestionId cascadeResult
    rw [hbeq]
    rfl
  have hbneP : (q.posterId != q.posterId) = false := by simp
  have hroute : deleteQuestionRoute db q.posterId q.id =
      (HttpOutcome.success 200, cascadeResult db q.id) := by
    unfold deleteQuestionRoute
    rw [hq]
    simp only [hbneP]
    rw [hpipe]
    rfl
  refine ⟨hpipe, hroute, ?_, ?_, ?_⟩
  · simp only [cascadeResult]
    exact filter_neg_filter _ _
  · simp only [cascadeResult]
    exact filter_neg_filter _ _
  · simp only [cascadeResult]
    exact filter_neg_filter _ _

/-- C2 witness: deleting question 10 from the sample database removes
response 20 and notification 40 and the question itself. -/
theorem question_delete_cascade_complete_witness :
    deleteQuestion (deleteNotificationsByQuestionId
        (deleteResponsesByQuestionId exDB exQuestion.id).1 exQuestion.id).1
        exQuestion.id =
      .ok (cascadeResult exDB exQuestion.id,
           exDB.questions.length
             - (exDB.questions.filter
                 (fun x => !(x.id == exQuestion.id))).length) ∧
    deleteQuestionRoute exDB exQuestion.posterId exQuestion.id =
      (HttpOutcome.success 200, cascadeResult exDB exQuestion.id) ∧
    (cascadeResult exDB exQuestion.id).responses.filter
        (fun r => r.questionId == exQuestion.id) = [] ∧
    (cascadeResult exDB exQuestion.id).notifications.filter
        (fun n => n.questionId == exQuestion.id) = [] ∧
    (cascadeResult exDB exQuestion.id).questions.filter
        (fun x => x.id == exQuestion.id) = [] :=
  question_delete_cascade_complete exDB exQuestion (by decide)

/-! ### C3 -/

/-- C3 counterexample: acting student 3 is not the poster (student 2) of
response 20, yet an update with an invalid payload (empty content) is
rejected by the shape validation with a 400 validation error, not with the
Forbidden the claim requires regardless of payload validity. -/
theorem nonowner_invalid_payload_not_forbidden :
    exResponse.posterId = 2 ∧
    (patchResponseRoute exDB 3 20 [("content", JsValue.str "")]).1
      = HttpOutcome.validationError := by
  decide

/-- C3 as amended: a non-poster invoking update or delete on a question or
response never modifies it and never succeeds; when the payload passes the
route shape validation the rejection is Forbidden, while a shape-invalid
payload is rejected by the validation stage before the ownership check. -/
theorem nonowner_update_delete_rejected (db : DB) (a : Nat) (r : Response)
    (q : Question) (bodyR bodyQ : UpdatePayload)
    (hr : findResponse db r.id = some r) (hra : r.posterId ≠ a)
    (hq : findQuestion db q.id = some q) (hqa : q.posterId ≠ a) :
    ((patchResponseRoute db a r.id bodyR).2 = db ∧
     (∀ s, (patchResponseRoute db a r.id bodyR).1 ≠ HttpOutcome.success s) ∧
     (respPatchBodyValid bodyR = true →
       patchResponseRoute db a r.id bodyR =
         (HttpOutcome.forbidden "You can only edit your own responses", db))) ∧
    ((patchQuestionRoute db a q.id bodyQ).2 = db ∧
     (∀ s, (patchQuestionRoute db a q.id bodyQ).1 ≠ HttpOutcome.success s) ∧
     (questionPatchBodyValid bodyQ = true →
       patchQuestionRoute db a q.id bodyQ =
         (HttpOutcome.forbidden "You can only edit your own questions", db))) ∧
    deleteResponseRoute db a r.id =
      (HttpOutcome.forbidden "You can only delete your own responses", db) ∧
    deleteQuestionRoute db a q.id =
      (HttpOutcome.forbidden "You can only delete your own questions", db) := by
  have hbneR : (r.posterId != a) = true := bne_iff_ne.mpr hra
  have hbneQ : (q.posterId != a) = true := bne_iff_ne.mpr hqa
  have hRvalid : ∀ body, respPatchBodyValid body = true →
      patchResponseRoute db a r.id body =
        (HttpOutcome.forbidden "You can only edit your own responses", db) := by
    intro body hv
    unfold patchResponseRoute
    rw [hv, hr]
    simp [hbneR]
  have hRinv : respPatchBodyValid bodyR = false →
      patchResponseRoute db a r.id bodyR = (HttpOutcome.validationError, db) := by
    intro hv
    unfold patchResponseRoute
    rw [hv]
    simp
  have hQvalid : ∀ body, questionPatchBodyValid body = true →
      patchQuestionRoute db a q.id body =
        (HttpOutcome.forbidden "You can only edit your own questions", db) := by
    intro body hv
    unfold patchQuestionRoute
    rw [hv, hq]
    simp [hbneQ]
  have hQinv : questionPatchBodyValid bodyQ = false →
      patchQuestionRoute db a q.id bodyQ = (HttpOutcome.validationError, db) := by
    intro hv
    unfold patchQuestionRoute
    rw [hv]
    simp
  refine ⟨?_, ?_, ?_, ?_⟩
  · cases hv : respPatchBodyValid bodyR with
    | false =>
      refine ⟨by rw [hRinv hv], fun s hs => ?_, fun hvt => absurd hvt (by simp)⟩
      rw [hRinv hv] at hs
      exact HttpOutcome.noConfusion hs
    | true =>
      refine ⟨by rw [hRvalid bodyR hv], fun s hs => ?_, fun _ => hRvalid bodyR hv⟩
      rw [hRvalid bodyR hv] at hs
      exact HttpOutcome.noConfusion hs
  · cases hv : questionPatchBodyValid bodyQ with
    | false =>
      refine ⟨by rw [hQinv hv], fun s hs => ?_, fun hvt => absurd hvt (by simp)⟩
      rw [hQinv hv] at hs
      exact HttpOutcome.noConfusion hs
    | true =>
      refine ⟨by rw [hQvalid bodyQ hv], fun s hs => ?_, fun _ => hQvalid bodyQ hv⟩
      rw [hQvalid bodyQ hv] at hs
      exact HttpOutcome.noConfusion hs
  · unfold deleteResponseRoute
    rw [hr]
    simp [hbneR]
  · unfold deleteQuestionRoute
    rw [hq]
    simp [hbneQ]

/-- C3 witness: acting student 3 is Forbidden on all four operations
against question 10 and response 20 with well-formed payloads, and the
state is unchanged. -/
theorem nonowner_update_delete_rejected_witness :
    patchResponseRoute exDB 3 exResponse.id [("content", JsValue.str "x")] =
      (HttpOutcome.forbidden "You can only edit your own responses", exDB) ∧
    patchQuestionRoute exDB 3 exQuestion.id [("isResolved", JsValue.bool true)] =
      (HttpOutcome.forbidden "You can only edit your own questions", exDB) ∧
    deleteResponseRoute exDB 3 exResponse.id =
      (HttpOutcome.forbidden "You can only delete your own responses", exDB) ∧
    deleteQuestionRoute exDB 3 exQuestion.id =
      (HttpOutcome.forbidden "You can only delete your own questions", exDB) := by
  obtain ⟨⟨_, _, h1⟩, ⟨_, _, h2⟩, h3, h4⟩ :=
    nonowner_update_delete_rejected exDB 3 exResponse exQuestion
      [("content", JsValue.str "x")] [("isResolved", JsValue.bool true)]
      (by decide) (by decide) (by decide) (by decide)
  exact ⟨h1 (by decide), h2 (by decide), h3, h4⟩

/-! ### C4 -/

/-- A sample database whose one response is already marked helpful. -/
def alreadyHelpfulDB : DB :=
  { questions := [exQuestion],
    responses := [{ exResponse with isHelpful := true }],
    notifications := [], nextId := 50, now := 5, notifInsertFails := false }

/-- C4 counterexample: response 20 already has isHelpful true, so the
request does not produce a false-to-true transition, yet marking it helpful
again (by student 1, different from the response poster 2) creates a
helpful_mark notification — the notification fires on the requested value,
not on a transition. -/
theorem already_helpful_remark_creates_notification :
    ((alreadyHelpfulDB.responses.find? (fun x => x.id == 20)).map
        (fun r => r.isHelpful) = some true) ∧
    alreadyHelpfulDB.notifications.length = 0 ∧
    (patchHelpfulRoute alreadyHelpfulDB 1 20 true).2.notifications.map
        (fun n => n.type) = ["helpful_mark"] := by
  decide

/-- C4 as amended: a helpful_mark notification is created exactly when the
request sets isHelpful to true and the acting identity differs from the
response poster (given the owning question exists and notification storage
does not fail), regardless of the prior isHelpful value: then exactly one
helpful_mark notification addressed to the response poster is appended;
marking by the response poster creates none, and unmarking never creates
any. -/
theorem helpful_mark_notification_fanout (db : DB) (r : Response)
    (q : Question) (hr : findResponse db r.id = some r)
    (hq : findQuestion db r.questionId = some q)
    (hok : db.notifInsertFails = false)
    (hm1 : 1 ≤ (jsTrim (helpfulMsg q.title)).length)
    (hm2 : (jsTrim (helpfulMsg q.title)).length ≤ 1000) :
    (∀ a, r.posterId ≠ a →
      (patchHelpfulRoute db a r.id true).2.notifications =
        db.notifications ++
          [{ id := db.nextId, recipientId := r.posterId,
             questionId := r.questionId, senderId := a,
             type := "helpful_mark", message := jsTrim (helpfulMsg q.title),
             isRead := false, createdAt := db.now }]) ∧
    (∀ b, (patchHelpfulRoute db r.posterId r.id b).2.notifications =
      db.notifications) ∧
    (∀ a, (patchHelpfulRoute db a r.id false).2.notifications =
      db.notifications) := by
  refine ⟨?_, ?_, ?_⟩
  · intro a ha
    have hbne : (r.posterId != a) = true := bne_iff_ne.mpr ha
    unfold patchHelpfulRoute
    rw [hr, updateResponse_isHelpful db r true hr]
    simp only [Bool.true_and, hbne, if_true]
    rw [findQuestion_responses_update, hq]
    simp only [createNotification_ok
      { db with responses := db.responses.map (fun x => if x.id == r.id then
          { r with isHelpful := true, updatedAt := db.now } else x) }
      r.posterId r.questionId a "helpful_mark" (helpfulMsg q.title)
      (by decide) (by decide) hm1 hm2 hok]
    rfl
  · intro b
    have hbne : (r.posterId != r.posterId) = false := by simp
    unfold patchHelpfulRoute
    rw [hr, updateResponse_isHelpful db r b hr]
    simp [hbne]
  · intro a
    unfold patchHelpfulRoute
    rw [hr, updateResponse_isHelpful db r false hr]
    simp

/-- C4 witness: in the sample database, student 1 marking response 20
helpful appends exactly one helpful_mark notification for poster 2; the
poster marking their own response, and any unmark, append none. -/
theorem helpful_mark_notification_fanout_witness :
    (1 : Nat) ≠ exResponse.posterId ∧
    (patchHelpfulRoute exDB 1 exResponse.id true).2.notifications =
      exDB.notifications ++
        [{ id := exDB.nextId, recipientId := exResponse.posterId,
           questionId := exResponse.questionId, senderId := 1,
           type := "helpful_mark",
           message := jsTrim (helpfulMsg exQuestion.title),
           isRead := false, createdAt := exDB.now }] ∧
    (patchHelpfulRoute exDB exResponse.posterId exResponse.id true).2.notifications
      = exDB.notifications ∧
    (patchHelpfulRoute exDB 1 exResponse.id false).2.notifications
      = exDB.notifications := by
  obtain ⟨h1, h2, h3⟩ :=
    helpful_mark_notification_fanout exDB exResponse exQuestion
      (by decide) (by decide) (by decide) (by decide) (by decide)
  exact ⟨by decide, h1 1 (by decide), h2 true, h3 1⟩

/-! ### C5 -/

/-- C5: posting a response to an existing question creates no notification
when the responder is the question poster, and exactly one new_response
notification addressed to the question poster, sent by the responder, when
they differ; the response is created (201) in both cases. -/
theorem new_response_notification_fanout (db : DB) (q : Question)
    (posterId : Nat) (firstName content : String) (isAnon : Bool)
    (hq : findQuestion db q.id = some q)
    (hok : db.notifInsertFails = false)
    (hc1 : 1 ≤ (jsTrim content).length)
    (hc2 : (jsTrim content).length ≤ 1500)
    (hm1 : 1 ≤ (jsTrim (newResponseMsg
        (if isAnon then "Someone" else firstName) q.title)).length)
    (hm2 : (jsTrim (newResponseMsg
        (if isAnon then "Someone" else firstName) q.title)).length ≤ 1000) :
    (q.posterId = posterId →
      (postResponseRoute db posterId firstName q.id content isAnon).1
        = HttpOutcome.success 201 ∧
      (postResponseRoute db posterId firstName q.id content isAnon).2.notifications
        = db.notifications) ∧
    (q.posterId ≠ posterId →
      (postResponseRoute db posterId firstName q.id content isAnon).1
        = HttpOutcome.success 201 ∧
      (postResponseRoute db posterId firstName q.id content isAnon).2.notifications
        = db.notifications ++
          [{ id := db.nextId + 1, recipientId := q.posterId, questionId := q.id,
             senderId := posterId, type := "new_response",
             message := jsTrim (newResponseMsg
               (if isAnon then "Someone" else firstName) q.title),
             isRead := false, createdAt := db.now }]) := by
  constructor
  · intro heq
    have hbne : (q.posterId != posterId) = false := by simp [heq]
    unfold postResponseRoute
    rw [if_neg (by simp; omega),
      createResponse_ok db q.id posterId content isAnon hc1 hc2]
    simp only [hbne]
    rw [findQuestion_resp_next_update, hq]
    simp [hbne]
  · intro hne
    have hbne : (q.posterId != posterId) = true := bne_iff_ne.mpr hne
    unfold postResponseRoute
    rw [if_neg (by simp; omega),
      createResponse_ok db q.id posterId content isAnon hc1 hc2]
    simp only [hbne]
    rw [findQuestion_resp_next_update, hq]
    simp only [hbne, if_true]
    rw [createNotification_ok
      { db with
          responses := db.responses ++
            [{ id := db.nextId, questionId := q.id, posterId := posterId,
               content := jsTrim content, isAnonymous := isAnon,
               isHelpful := false, createdAt := db.now,
               updatedAt := db.now }],
          nextId := db.nextId + 1 }
      q.posterId q.id posterId "new_response"
      (newResponseMsg (if isAnon then "Someone" else firstName) q.title)
      (by decide) (by decide) hm1 hm2 hok]
    exact ⟨trivial, rfl⟩

/-- C5 witness: student 2 posting to question 10 (posted by student 1)
creates exactly one new_response notification for student 1; student 1
posting to their own question creates none. -/
theorem new_response_notification_fanout_witness :
    ((postResponseRoute exDB 1 "Ann" exQuestion.id "hello" false).1
        = HttpOutcome.success 201 ∧
     (postResponseRoute exDB 1 "Ann" exQuestion.id "hello" false).2.notifications
        = exDB.notifications) ∧
    ((postResponseRoute exDB 2 "Bea" exQuestion.id "hello" false).1
        = HttpOutcome.success 201 ∧
     (postResponseRoute exDB 2 "Bea" exQuestion.id "hello" false).2.notifications
        = exDB.notifications ++
          [{ id := exDB.nextId + 1, recipientId := exQuestion.posterId,
             questionId := exQuestion.id, senderId := 2,
             type := "new_response",
             message := jsTrim (newResponseMsg
               (if false then "Someone" else "Bea") exQuestion.title),
             isRead := false, createdAt := exDB.now }]) := by
  constructor
  · exact (new_response_notification_fanout exDB exQuestion 1 "Ann" "hello"
      false (by decide) (by decide) (by decide) (by decide) (by decide)
      (by decide)).1 (by decide)
  · exact (new_response_notification_fanout exDB exQuestion 2 "Bea" "hello"
      false (by decide) (by decide) (by decide) (by decide) (by decide)
      (by decide)).2 (by decide)

/-! ### C6 -/

/-- C6: when notification storage fails, the failure is caught: response
creation still returns 201 with the response inserted, and helpful-marking
still returns 200 with the flag set; in both cases the notifications
collection is unchanged and the primary write is kept. -/
theorem notification_failure_isolated (db : DB) (q : Question) (r : Response)
    (posterId a : Nat) (firstName content : String)
    (hfail : db.notifInsertFails = true)
    (hq : findQuestion db q.id = some q) (hqa : q.posterId ≠ posterId)
    (hc1 : 1 ≤ (jsTrim content).length)
    (hc2 : (jsTrim content).length ≤ 1500)
    (hr : findResponse db r.id = some r) (hra : r.posterId ≠ a) :
    ((postResponseRoute db posterId firstName q.id content false).1
        = HttpOutcome.success 201 ∧
     (postResponseRoute db posterId firstName q.id content false).2.responses
        = db.responses ++
          [{ id := db.nextId, questionId := q.id, posterId := posterId,
             content := jsTrim content, isAnonymous := false,
             isHelpful := false, createdAt := db.now, updatedAt := db.now }] ∧
     (postResponseRoute db posterId firstName q.id content false).2.notifications
        = db.notifications) ∧
    ((patchHelpfulRoute db a r.id true).1 = HttpOutcome.success 200 ∧
     (patchHelpfulRoute db a r.id true).2.responses
        = db.responses.map (fun x => if x.id == r.id then
            { r with isHelpful := true, updatedAt := db.now } else x) ∧
     (patchHelpfulRoute db a r.id true).2.notifications = db.notifications) := by
  constructor
  · have hbne : (q.posterId != posterId) = true := bne_iff_ne.mpr hqa
    unfold postResponseRoute
    rw [if_neg (by simp; omega),
      createResponse_ok db q.id posterId content false hc1 hc2]
    simp only [hbne]
    rw [findQuestion_resp_next_update, hq]
    simp only [hbne, if_true]
    obtain ⟨e, he⟩ := createNotification_fails
      { db with
          responses := db.responses ++
            [{ id := db.nextId, questionId := q.id, posterId := posterId,
               content := jsTrim content, isAnonymous := false,
               isHelpful := false, createdAt := db.now,
               updatedAt := db.now }],
          nextId := db.nextId + 1 }
      q.posterId q.id posterId "new_response"
      (newResponseMsg (if false then "Someone" else firstName) q.title) hfail
    rw [he]
    exact ⟨trivial, rfl, rfl⟩
  · have hbne : (r.posterId != a) = true := bne_iff_ne.mpr hra
    unfold patchHelpfulRoute
    rw [hr, updateResponse_isHelpful db r true hr]
    simp only [Bool.true_and, hbne, if_true]
    cases hfq : findQuestion
        { db with responses := db.responses.map (fun x => if x.id == r.id then
            { r with isHelpful := true, updatedAt := db.now } else x) }
        r.questionId with
    | none => exact ⟨rfl, rfl, rfl⟩
    | some question =>
      obtain ⟨e, he⟩ := createNotification_fails
        { db with responses := db.responses.map (fun x => if x.id == r.id then
            { r with isHelpful := true, updatedAt := db.now } else x) }
        r.posterId r.questionId a "helpful_mark" (helpfulMsg question.title)
        hfail
      simp only [he]
      exact ⟨trivial, trivial, trivial⟩

/-- The sample database with failing notification storage. -/
def failDB : DB := { exDB with notifInsertFails := true }

/-- C6 witness: with failing notification storage, student 2 posting to
question 10 still gets 201 with the response stored, and student 1 marking
response 20 helpful still gets 200 with the flag set; no notification is
added in either case. -/
theorem notification_failure_isolated_witness :
    ((postResponseRoute failDB 2 "Bea" exQuestion.id "hello" false).1
        = HttpOutcome.success 201 ∧
     (postResponseRoute failDB 2 "Bea" exQuestion.id "hello" false).2.responses
        = failDB.responses ++
          [{ id := failDB.nextId, questionId := exQuestion.id, posterId := 2,
             content := jsTrim "hello", isAnonymous := false,
             isHelpful := false, createdAt := failDB.now,
             updatedAt := failDB.now }] ∧
     (postResponseRoute failDB 2 "Bea" exQuestion.id "hello" false).2.notifications
        = failDB.notifications) ∧
    ((patchHelpfulRoute failDB 1 exResponse.id true).1
        = HttpOutcome.success 200 ∧
     (patchHelpfulRoute failDB 1 exResponse.id true).2.responses
        = failDB.responses.map (fun x => if x.id == exResponse.id then
            { exResponse with isHelpful := true, updatedAt := failDB.now }
          else x) ∧
     (patchHelpfulRoute failDB 1 exResponse.id true).2.notifications
        = failDB.notifications) :=
  notification_failure_isolated failDB exQuestion exResponse 2 1 "Bea" "hello"
    (by decide) (by decide) (by decide) (by decide) (by decide) (by decide)
    (by decide)

/-! ### C7 -/

/-- The ascending createdAt comparator is transitive. -/
theorem byCreatedAsc_trans : ∀ a b c : Question,
    byCreatedAsc a b → byCreatedAsc b c → byCreatedAsc a c := by
  intro a b c hab hbc
  simp [byCreatedAsc] at *
  omega

/-- The ascending createdAt comparator is total. -/
theorem byCreatedAsc_total : ∀ a b : Question,
    (byCreatedAsc a b || byCreatedAsc b a) = true := by
  intro a b
  simp [byCreatedAsc]
  omega

/-- The descending createdAt comparator is transitive. -/
theorem byCreatedDesc_trans : ∀ a b c : Question,
    byCreatedDesc a b → byCreatedDesc b c → byCreatedDesc a c := by
  intro a b c hab hbc
  simp [byCreatedDesc] at *
  omega

/-- The descending createdAt comparator is total. -/
theorem byCreatedDesc_total : ∀ a b : Question,
    (byCreatedDesc a b || byCreatedDesc b a) = true := by
  intro a b
  simp [byCreatedDesc]
  omega

/-- C7: listing the questions of a course sorts ascending for oldest and
descending for newest with no filtering (the result is a permutation of the
course questions); answered returns exactly the resolved and unanswered
exactly the unresolved questions, both descending, with sizes summing to
the course total; every unknown sort value behaves as newest. -/
theorem listForCourse_sort_spec (db : DB) (cid : Nat) :
    List.Pairwise (fun x y : Question => x.createdAt ≤ y.createdAt)
      (getQuestionsByCourseId db cid "oldest") ∧
    (getQuestionsByCourseId db cid "oldest").Perm (courseQuestions db cid) ∧
    List.Pairwise (fun x y : Question => y.createdAt ≤ x.createdAt)
      (getQuestionsByCourseId db cid "newest") ∧
    (getQuestionsByCourseId db cid "newest").Perm (courseQuestions db cid) ∧
    List.Pairwise (fun x y : Question => y.createdAt ≤ x.createdAt)
      (getQuestionsByCourseId db cid "answered") ∧
    (getQuestionsByCourseId db cid "answered").Perm
      ((courseQuestions db cid).filter (fun x => x.isResolved)) ∧
    List.Pairwise (fun x y : Question => y.createdAt ≤ x.createdAt)
      (getQuestionsByCourseId db cid "unanswered") ∧
    (getQuestionsByCourseId db cid "unanswered").Perm
      ((courseQuestions db cid).filter (fun x => !x.isResolved)) ∧
    (getQuestionsByCourseId db cid "answered").length
      + (getQuestionsByCourseId db cid "unanswered").length
      = (courseQuestions db cid).length ∧
    (∀ s, s ≠ "newest" → s ≠ "oldest" → s ≠ "answered" → s ≠ "unanswered" →
      getQuestionsByCourseId db cid s = getQuestionsByCourseId db cid "newest") := by
  have hold : getQuestionsByCourseId db cid "oldest"
      = (courseQuestions db cid).mergeSort byCreatedAsc := rfl
  have hnew : getQuestionsByCourseId db cid "newest"
      = (courseQuestions db cid).mergeSort byCreatedDesc := rfl
  have hans : getQuestionsByCourseId db cid "answered"
      = ((courseQuestions db cid).filter
          (fun x => x.isResolved)).mergeSort byCreatedDesc := rfl
  have huns : getQuestionsByCourseId db cid "unanswered"
      = ((courseQuestions db cid).filter
          (fun x => !x.isResolved)).mergeSort byCreatedDesc := rfl
  refine ⟨?_, ?_, ?_, ?_, ?_, ?_, ?_, ?_, ?_, ?_⟩
  · rw [hold]
    exact List.Pairwise.imp (fun h => by simpa [byCreatedAsc] using h)
      (List.sorted_mergeSort byCreatedAsc_trans byCreatedAsc_total _)
  · rw [hold]
    exact List.mergeSort_perm _ _
  · rw [hnew]
    exact List.Pairwise.imp (fun h => by simpa [byCreatedDesc] using h)
      (List.sorted_mergeSort byCreatedDesc_trans byCreatedDesc_total _)
  · rw [hnew]
    exact List.mergeSort_perm _ _
  · rw [hans]
    exact List.Pairwise.imp (fun h => by simpa [byCreatedDesc] using h)
      (List.sorted_mergeSort byCreatedDesc_trans byCreatedDesc_total _)
  · rw [hans]
    exact List.mergeSort_perm _ _
  · rw [huns]
    exact List.Pairwise.imp (fun h => by simpa [byCreatedDesc] using h)
      (List.sorted_mergeSort byCreatedDesc_trans byCreatedDesc_total _)
  · rw [huns]
    exact List.mergeSort_perm _ _
  · have h1 := (List.mergeSort_perm ((courseQuestions db cid).filter
      (fun x => x.isResolved)) byCreatedDesc).length_eq
    have h2 := (List.mergeSort_perm ((courseQuestions db cid).filter
      (fun x => !x.isResolved)) byCreatedDesc).length_eq
    rw [hans, huns, h1, h2]
    exact length_filter_partition (fun x => x.isResolved) (courseQuestions db cid)
  · intro s h1 h2 h3 h4
    have e1 : (s == "newest") = false := beq_eq_false_iff_ne.mpr h1
    have e2 : (s == "oldest") = false := beq_eq_false_iff_ne.mpr h2
    have e3 : (s == "answered") = false := beq_eq_false_iff_ne.mpr h3
    have e4 : (s == "unanswered") = false := beq_eq_false_iff_ne.mpr h4
    rw [hnew]
    unfold getQuestionsByCourseId
    rw [e1, e2, e3, e4]
    rfl

/-- A later, unresolved question in course 1. -/
def exQuestionLate : Question :=
  { exQuestion with id := 11, createdAt := 3 }

/-- A resolved question in course 1. -/
def exQuestionResolved : Question :=
  { exQuestion with id := 12, createdAt := 2, isResolved := true }

/-- A sample database with three questions in course 1 created at distinct
times, one of them resolved. -/
def exCourseDB : DB :=
  { questions := [exQuestionLate, exQuestion, exQuestionResolved],
    responses := [], notifications := [], nextId := 60, now := 9,
    notifInsertFails := false }

/-- C7 witness: on the sample course the unknown sort value foo behaves as
newest, and the answered and unanswered result sizes sum to the course
total. -/
theorem listForCourse_sort_spec_witness :
    getQuestionsByCourseId exCourseDB 1 "foo"
      = getQuestionsByCourseId exCourseDB 1 "newest" ∧
    (getQuestionsByCourseId exCourseDB 1 "answered").length
      + (getQuestionsByCourseId exCourseDB 1 "unanswered").length
      = (courseQuestions exCourseDB 1).length := by
  obtain ⟨_, _, _, _, _, _, _, _, hsum, hfallback⟩ := listForCourse_sort_spec exCourseDB 1
  exact ⟨hfallback "foo" (by decide) (by decide) (by decide) (by decide), hsum⟩

/-! ### C8 -/

/-- Every error of the updateQuestion field loop is of the InvalidInput
kind. -/
theorem processQuestionUpdates_error_invalid :
    ∀ (u : UpdatePayload) (acc : QuestionUpdateFields) (e : DataErr),
      processQuestionUpdates u acc = .error e → e.isInvalidInput = true := by
  intro u
  induction u with
  | nil =>
    intro acc e h
    simp [processQuestionUpdates] at h
  | cons hd rest ih =>
    intro acc e h
    obtain ⟨key, value⟩ := hd
    cases value <;> simp only [processQuestionUpdates] at h <;>
      split at h <;> (try split at h) <;> (try split at h) <;> (try split at h)
    all_goals first
      | exact ih _ _ h
      | (injection h with h2; subst h2; rfl)
      | (injection h with h2; subst h2; exact validateString_error_invalid _ _ _ _ _ (by assumption))

/-- A successful updateQuestion field loop implies every payload key is on
the allow-list. -/
theorem processQuestionUpdates_ok_keys :
    ∀ (u : UpdatePayload) (acc res : QuestionUpdateFields),
      processQuestionUpdates u acc = .ok res →
      ∀ kv ∈ u, questionAllowedUpdates.contains kv.1 = true := by
  intro u
  induction u with
  | nil =>
    intro acc res h kv hkv
    cases hkv
  | cons hd rest ih =>
    intro acc res h kv hkv
    obtain ⟨key, value⟩ := hd
    rcases List.mem_cons.mp hkv with heq | hmem
    · subst heq
      by_cases hk : questionAllowedUpdates.contains key = true
      · exact hk
      · exfalso
        have hkf0 : questionAllowedUpdates.contains key = false := by
          simpa using hk
        have hkf : (!(questionAllowedUpdates.contains key)) = true := by
          rw [hkf0]
          rfl
        cases value
        all_goals (simp only [processQuestionUpdates] at h; rw [if_pos hkf] at h; exact absurd h (by simp))
    · cases value <;> simp only [processQuestionUpdates] at h <;>
        split at h <;> (try split at h) <;> (try split at h) <;>
        (try split at h)
      all_goals first
        | exact ih _ _ h kv hmem
        | exact absurd h (by simp)

/-- Every error of the updateResponse field loop is of the InvalidInput
kind. -/
theorem processResponseUpdates_error_invalid :
    ∀ (u : UpdatePayload) (acc : ResponseUpdateFields) (e : DataErr),
      processResponseUpdates u acc = .error e → e.isInvalidInput = true := by
  intro u
  induction u with
  | nil =>
    intro acc e h
    simp [processResponseUpdates] at h
  | cons hd rest ih =>
    intro acc e h
    obtain ⟨key, value⟩ := hd
    cases value <;> simp only [processResponseUpdates] at h <;>
      split at h <;> (try split at h) <;> (try split at h) <;> (try split at h)
    all_goals first
      | exact ih _ _ h
      | (injection h with h2; subst h2; rfl)
      | (injection h with h2; subst h2; exact validateString_error_invalid _ _ _ _ _ (by assumption))

/-- A successful updateResponse field loop implies every payload key is on
the allow-list. -/
theorem processResponseUpdates_ok_keys :
    ∀ (u : UpdatePayload) (acc res : ResponseUpdateFields),
      processResponseUpdates u acc = .ok res →
      ∀ kv ∈ u, responseAllowedUpdates.contains kv.1 = true := by
  intro u
  induction u with
  | nil =>
    intro acc res h kv hkv
    cases hkv
  | cons hd rest ih =>
    intro acc res h kv hkv
    obtain ⟨key, value⟩ := hd
    rcases List.mem_cons.mp hkv with heq | hmem
    · subst heq
      by_cases hk : responseAllowedUpdates.contains key = true
      · exact hk
      · exfalso
        have hkf0 : responseAllowedUpdates.contains key = false := by
          simpa using hk
        have hkf : (!(responseAllowedUpdates.contains key)) = true := by
          rw [hkf0]
          rfl
        cases value
        all_goals (simp only [processResponseUpdates] at h; rw [if_pos hkf] at h; exact absurd h (by simp))
    · cases value <;> simp only [processResponseUpdates] at h <;>
        split at h <;> (try split at h) <;> (try split at h) <;>
        (try split at h)
      all_goals first
        | exact ih _ _ h kv hmem
        | exact absurd h (by simp)

/-- C8: updating a question or response with an empty payload, or with any
payload containing a key outside the respective allow-list, fails with an
InvalidInput error; since the store returns a new state only on success,
the entity (its updatedAt included) is untouched. -/
theorem update_allowlist_enforcement (db : DB) (qid rid : Nat)
    (u : UpdatePayload) :
    ((u = [] ∨ ∃ kv ∈ u, questionAllowedUpdates.contains kv.1 = false) →
      ∃ e, updateQuestion db qid u = .error e ∧ e.isInvalidInput = true) ∧
    ((u = [] ∨ ∃ kv ∈ u, responseAllowedUpdates.contains kv.1 = false) →
      ∃ e, updateResponse db rid u = .error e ∧ e.isInvalidInput = true) := by
  constructor
  · rintro (rfl | ⟨kv, hmem, hkey⟩)
    · exact ⟨.invalidInput "No updates provided", rfl, rfl⟩
    · have hne : u.isEmpty = false := by
        cases u
        · cases hmem
        · rfl
      cases hp : processQuestionUpdates u {} with
      | ok res =>
        have hall := processQuestionUpdates_ok_keys u {} res hp kv hmem
        rw [hall] at hkey
        exact absurd hkey (by simp)
      | error e =>
        refine ⟨e, ?_, processQuestionUpdates_error_invalid u {} e hp⟩
        unfold updateQuestion
        rw [hne, hp]
        rfl
  · rintro (rfl | ⟨kv, hmem, hkey⟩)
    · exact ⟨.invalidInput "No updates provided", rfl, rfl⟩
    · have hne : u.isEmpty = false := by
        cases u
        · cases hmem
        · rfl
      cases hp : processResponseUpdates u {} with
      | ok res =>
        have hall := processResponseUpdates_ok_keys u {} res hp kv hmem
        rw [hall] at hkey
        exact absurd hkey (by simp)
      | error e =>
        refine ⟨e, ?_, processResponseUpdates_error_invalid u {} e hp⟩
        unfold updateResponse
        rw [hne, hp]
        rfl

/-- C8 witness: an update payload setting posterId fails with InvalidInput
on both the question store and the response store. -/
theorem update_allowlist_enforcement_witness :
    (∃ e, updateQuestion exDB exQuestion.id [("posterId", JsValue.num 9)]
        = .error e ∧ e.isInvalidInput = true) ∧
    (∃ e, updateResponse exDB exResponse.id [("posterId", JsValue.num 9)]
        = .error e ∧ e.isInvalidInput = true) := by
  obtain ⟨h1, h2⟩ := update_allowlist_enforcement exDB exQuestion.id
    exResponse.id [("posterId", JsValue.num 9)]
  exact ⟨h1 (Or.inr ⟨("posterId", JsValue.num 9), by decide, by decide⟩),
    h2 (Or.inr ⟨("posterId", JsValue.num 9), by decide, by decide⟩)⟩

/-! ### C9 -/

/-- C9: the general response-update route forwards the whole body to
updateResponse after checking only that the actor is the response poster,
and the store allow-list includes isHelpful; hence the poster of any
response can set its isHelpful flag to any boolean through the content-edit
path, with no check involving the owning question. -/
theorem poster_sets_isHelpful_via_edit_route (db : DB) (r : Response)
    (b : Bool) (hr : findResponse db r.id = some r) :
    (patchResponseRoute db r.posterId r.id [("isHelpful", JsValue.bool b)]).1
      = HttpOutcome.success 200 ∧
    (patchResponseRoute db r.posterId r.id
        [("isHelpful", JsValue.bool b)]).2.responses
      = db.responses.map (fun x => if x.id == r.id then
          { r with isHelpful := b, updatedAt := db.now } else x) := by
  have hbody : respPatchBodyValid [("isHelpful", JsValue.bool b)] = true := rfl
  unfold patchResponseRoute
  rw [hr, updateResponse_isHelpful db r b hr]
  simp [hbody]

/-- C9 witness: in the sample database the poster of response 20 flips its
isHelpful flag to true through the content-edit route. -/
theorem poster_sets_isHelpful_via_edit_route_witness :
    (patchResponseRoute exDB exResponse.posterId exResponse.id
        [("isHelpful", JsValue.bool true)]).1 = HttpOutcome.success 200 ∧
    (patchResponseRoute exDB exResponse.posterId exResponse.id
        [("isHelpful", JsValue.bool true)]).2.responses
      = exDB.responses.map (fun x => if x.id == exResponse.id then
          { exResponse with isHelpful := true, updatedAt := exDB.now } else x) :=
  poster_sets_isHelpful_via_edit_route exDB exResponse true (by decide)

/-! ### C10 -/

/-- C10: the mark-read route never consults the session identity: for every
acting student, marking an existing notification as read succeeds and flips
only its isRead flag. -/
theorem mark_read_ignores_recipient (db : DB) (a : Nat) (n : Notification)
    (hn : findNotification db n.id = some n) :
    patchNotificationReadRoute db a n.id =
      (HttpOutcome.success 200,
       { db with
          notifications := db.notifications.map
            (fun x => if x.id == n.id then { n with isRead := true } else x) }) := by
  unfold patchNotificationReadRoute markNotificationAsRead
  rw [hn]

/-- C10 witness: acting student 3, who is not the recipient (student 1) of
notification 40, marks it read successfully. -/
theorem mark_read_ignores_recipient_witness :
    patchNotificationReadRoute exDB 3 exNotification.id =
      (HttpOutcome.success 200,
       { exDB with
          notifications := exDB.notifications.map
            (fun x => if x.id == exNotification.id then
              { exNotification with isRead := true } else x) }) :=
  mark_read_ignores_recipient exDB 3 exNotification (by decide)

end PeerTutor
